import Mathlib

/-!
Verification of the Model Resolution & Ensemble Inference Pipeline of the
OpthalmoAI repository.

The definitions below are a shallow embedding of the Python code under
`backend/app/models/`:

* `get_risk_level` embeds `OpthalmoAIModelLoader._get_risk_level`
  (enhanced_model_loader.py, lines 278-285) and the identical
  `ModelLoader._get_risk_level` (model_loader.py, lines 90-97).
* `load_models`, `load_custom_trained_model`, `load_ensemble_models`,
  `load_fallback_model` and `predict_source` embed the startup resolution
  ladder of `OpthalmoAIModelLoader` (enhanced_model_loader.py, lines 38-125
  and 155-169).  Exceptions are made explicit: each loading step returns the
  loader state paired with a `Bool` that is `true` when the Python call
  returned normally and `false` when it raised; catching an exception in the
  source corresponds to inspecting that flag, and state mutations performed
  before the raise persist, exactly as attribute assignments do in Python.
* `pyround2`, `adapter_class_probabilities`, `ensemble_predict` and friends
  embed the probability post-processing of `ResNet50Predictor.predict`
  (resnet50_model.py, lines 128-172), `VGG16Predictor.predict` and
  `OpthalmoAIModelLoader._ensemble_predict` (enhanced_model_loader.py,
  lines 205-265).
* `stripModule` and `normalize_state_dict` embed the checkpoint key
  normalization of `CustomTrainedModel.load_model`
  (custom_trained_model.py, lines 139-150); Python dicts are embedded as
  association lists that keep insertion order, with overwriting updates.
* `resnet50_attempts_load` / `resnet50_weights` (and the VGG16 twins) embed
  the constructor weight-loading decision of `ResNet50Predictor.__init__`
  (resnet50_model.py, lines 62-75) and `VGG16Predictor.__init__`
  (vgg16_model.py, lines 61-74).
-/

namespace OpthalmoAI

/-! ### Clinical mapper: risk level (`_get_risk_level`) -/

inductive RiskLevel where
  | low
  | moderate
  | high
deriving DecidableEq, Repr

/-- Embeds `_get_risk_level(stage, confidence)`: `if stage == 0: LOW;
elif stage in [1, 2]: MODERATE if confidence > 70 else LOW; else: HIGH`.
The same function appears verbatim in `enhanced_model_loader.py` and in
`model_loader.py`. Confidence is the percentage value (0-100 scale). -/
def get_risk_level (stage : ℤ) (confidence : ℚ) : RiskLevel :=
  if stage = 0 then RiskLevel.low
  else if stage = 1 ∨ stage = 2 then
    (if 70 < confidence then RiskLevel.moderate else RiskLevel.low)
  else RiskLevel.high

/-- The risk rule as the specification words it: stage 0 → Low;
stages 3-4 → High regardless of confidence; stages 1-2 → Moderate if
confidence > 70, else Low. Stated independently of `get_risk_level` so the
code can be compared against the spec. -/
def riskLevelSpec (stage : ℤ) (confidence : ℚ) : RiskLevel :=
  if stage = 0 then RiskLevel.low
  else if stage = 3 ∨ stage = 4 then RiskLevel.high
  else if 70 < confidence then RiskLevel.moderate else RiskLevel.low

/-! ### Model resolver ladder (`OpthalmoAIModelLoader.load_models`) -/

/-- Which loading calls would succeed in the current artifact/runtime
configuration: `trained_model_available` is `is_trained_model_available()`,
`custom_load_ok` means `load_custom_trained_model(...)` returns without
raising, `resnet_load_ok` / `vgg_load_ok` mean the respective
`load_resnet50_model` / `load_vgg16_model` constructor calls inside
`_load_ensemble_models` return normally, and `fallback_load_ok` means the
`load_resnet50_model(device=...)` call inside `_load_fallback_model`
returns normally. -/
structure LoadEnv where
  trained_model_available : Bool
  custom_load_ok : Bool
  resnet_load_ok : Bool
  vgg_load_ok : Bool
  fallback_load_ok : Bool

/-- The mutable attributes of `OpthalmoAIModelLoader` relevant to
resolution; the three model fields record whether the corresponding
attribute holds a loaded model (`True`) or is still `None`. -/
structure LoaderState where
  custom_model : Bool
  resnet50_model : Bool
  vgg16_model : Bool
  models_loaded : Bool
  use_custom_model : Bool
  ensemble_mode : Bool
deriving DecidableEq, Repr

/-- `__init__`: all models `None`, `models_loaded = False`,
`use_custom_model = False`, `ensemble_mode = True`. -/
def initState : LoaderState :=
  { custom_model := false, resnet50_model := false, vgg16_model := false
    models_loaded := false, use_custom_model := false, ensemble_mode := true }

/-- `_load_fallback_model`: try to load a single ResNet50; on success set
`resnet50_model`, `ensemble_mode = False`, `use_custom_model = False`; if
the load raises, the `except` block re-raises `RuntimeError("Failed to
load any models")`, leaving the state untouched (`false` = raised). -/
def load_fallback_model (env : LoadEnv) (st : LoaderState) :
    LoaderState × Bool :=
  if env.fallback_load_ok then
    ({ st with resnet50_model := true, ensemble_mode := false
               use_custom_model := false }, true)
  else
    (st, false)

/-- `_load_ensemble_models`: load ResNet50 then VGG16, then set
`use_custom_model = False`; any raise inside the `try` is caught and routed
to `_load_fallback_model`, keeping whatever attributes were already
assigned (in particular `resnet50_model` if only the VGG16 load raised). -/
def load_ensemble_models (env : LoadEnv) (st : LoaderState) :
    LoaderState × Bool :=
  if env.resnet_load_ok then
    let st1 := { st with resnet50_model := true }
    if env.vgg_load_ok then
      ({ st1 with vgg16_model := true, use_custom_model := false }, true)
    else
      load_fallback_model env st1
  else
    load_fallback_model env st

/-- `_load_custom_trained_model`: on success set `custom_model` and
`use_custom_model = True`; if `load_custom_trained_model(...)` raises, the
`except` block falls through to `_load_ensemble_models` (whose own failure
propagates out of this function). -/
def load_custom_trained_model (env : LoadEnv) (st : LoaderState) :
    LoaderState × Bool :=
  if env.custom_load_ok then
    ({ st with custom_model := true, use_custom_model := true }, true)
  else
    load_ensemble_models env st

/-- `load_models`: choose the custom path when
`is_trained_model_available()` and the ensemble path otherwise; when the
chosen path returns normally, set `models_loaded = True`; when it raises,
the `except` block calls `_load_fallback_model` (note: the Python code does
not set `models_loaded` on that path, and re-raises when the fallback also
fails). -/
def load_models (env : LoadEnv) (st : LoaderState) : LoaderState × Bool :=
  let r :=
    if env.trained_model_available then load_custom_trained_model env st
    else load_ensemble_models env st
  if r.2 then ({ r.1 with models_loaded := true }, true)
  else load_fallback_model env r.1

inductive PredictSource where
  | custom
  | ensemble
deriving DecidableEq, Repr

/-- The dispatch inside `OpthalmoAIModelLoader.predict`: raise
`RuntimeError("Models not loaded")` when `models_loaded` is false (encoded
as `none`), use the custom model when `use_custom_model and
self.custom_model`, otherwise `_ensemble_predict`. -/
def predict_source (st : LoaderState) : Option PredictSource :=
  if st.models_loaded = false then none
  else if st.use_custom_model && st.custom_model then some PredictSource.custom
  else some PredictSource.ensemble

/-! ### Theorems for claims C1-C4 -/

/-- Claim C1. For every stage `s` in `0..4` and every confidence `c`, the
risk-level function of the code agrees with the rule of the spec (stage 0 → Low;
stages 1-2 → Moderate iff confidence > 70, else Low; stages 3-4 → High
regardless of confidence), and in particular `mapStage(2, 75) = Moderate`,
`mapStage(2, 65) = Low`, `mapStage(4, 10) = High`. -/
theorem claim1_risk_level :
    (∀ (s : ℤ) (c : ℚ), 0 ≤ s → s ≤ 4 →
      get_risk_level s c = riskLevelSpec s c) ∧
    get_risk_level 2 75 = RiskLevel.moderate ∧
    get_risk_level 2 65 = RiskLevel.low ∧
    get_risk_level 4 10 = RiskLevel.high := by
  refine ⟨?_, by norm_num [get_risk_level], by norm_num [get_risk_level],
    by norm_num [get_risk_level]⟩
  intro s c h1 h2
  interval_cases s <;>
    simp [get_risk_level, riskLevelSpec]

/-- Witness for C1 at a concrete input. -/
theorem claim1_risk_level_witness :
    get_risk_level 3 50 = riskLevelSpec 3 50 :=
  claim1_risk_level.1 3 50 (by norm_num) (by norm_num)

/-- Claim C2. If the custom model is absent or fails, both ensemble families
fail, and the single-classifier fallback fails, then `load_models` raises
(the returned flag is `false`, modelling the propagated
`RuntimeError("Failed to load any models")`), `models_loaded` stays false,
and every subsequent `predict` raises (`predict_source` is `none`). -/
theorem claim2_fatal_startup (env : LoadEnv)
    (hcustom : env.trained_model_available = false ∨ env.custom_load_ok = false)
    (hres : env.resnet_load_ok = false)
    (hvgg : env.vgg_load_ok = false)
    (hfb : env.fallback_load_ok = false) :
    (load_models env initState).2 = false ∧
    (load_models env initState).1.models_loaded = false ∧
    predict_source (load_models env initState).1 = none := by
  obtain ⟨t, c, r, v, f⟩ := env
  revert hcustom hres hvgg hfb
  revert t c r v f
  decide

/-- Witness for C2: no artifact loads at all. -/
theorem claim2_fatal_startup_witness :
    (load_models ⟨false, false, false, false, false⟩ initState).2 = false ∧
    (load_models ⟨false, false, false, false, false⟩ initState).1.models_loaded
      = false ∧
    predict_source (load_models ⟨false, false, false, false, false⟩
      initState).1 = none :=
  claim2_fatal_startup ⟨false, false, false, false, false⟩ (Or.inl rfl)
    rfl rfl rfl

/-- Claim C3. Whenever the custom trained-weights file exists and its load
succeeds, `load_models` ends in custom mode: `use_custom_model` is set,
`models_loaded` is true, neither the ResNet50 nor the VGG16 ensemble
adapter is instantiated — whatever the (possibly valid) ensemble artifacts
would have done — and `predict` dispatches to the custom model. -/
theorem claim3_custom_exclusive (env : LoadEnv)
    (havail : env.trained_model_available = true)
    (hok : env.custom_load_ok = true) :
    (load_models env initState).2 = true ∧
    (load_models env initState).1.use_custom_model = true ∧
    (load_models env initState).1.models_loaded = true ∧
    (load_models env initState).1.resnet50_model = false ∧
    (load_models env initState).1.vgg16_model = false ∧
    predict_source (load_models env initState).1
      = some PredictSource.custom := by
  obtain ⟨t, c, r, v, f⟩ := env
  revert havail hok
  revert t c r v f
  decide

/-- Witness for C3: custom artifact loads while valid ensemble artifacts
are also present. -/
theorem claim3_custom_exclusive_witness :
    (load_models ⟨true, true, true, true, true⟩ initState).2 = true ∧
    (load_models ⟨true, true, true, true, true⟩ initState).1.use_custom_model
      = true ∧
    (load_models ⟨true, true, true, true, true⟩ initState).1.models_loaded
      = true ∧
    (load_models ⟨true, true, true, true, true⟩ initState).1.resnet50_model
      = false ∧
    (load_models ⟨true, true, true, true, true⟩ initState).1.vgg16_model
      = false ∧
    predict_source (load_models ⟨true, true, true, true, true⟩ initState).1
      = some PredictSource.custom :=
  claim3_custom_exclusive ⟨true, true, true, true, true⟩ rfl rfl

/-- Claim C4. When the custom weights file exists but its checkpoint load
raises, and both ensemble loads succeed, `load_models` does not fail: the
error is caught at the custom-model boundary, both ensemble adapters are
instantiated, and the loader ends in ensemble mode with `models_loaded`
true. -/
theorem claim4_custom_failure_falls_back (env : LoadEnv)
    (havail : env.trained_model_available = true)
    (hfail : env.custom_load_ok = false)
    (hres : env.resnet_load_ok = true)
    (hvgg : env.vgg_load_ok = true) :
    (load_models env initState).2 = true ∧
    (load_models env initState).1.models_loaded = true ∧
    (load_models env initState).1.use_custom_model = false ∧
    (load_models env initState).1.resnet50_model = true ∧
    (load_models env initState).1.vgg16_model = true ∧
    (load_models env initState).1.ensemble_mode = true ∧
    predict_source (load_models env initState).1
      = some PredictSource.ensemble := by
  obtain ⟨t, c, r, v, f⟩ := env
  revert havail hfail hres hvgg
  revert t c r v f
  decide

/-- Witness for C4: failing custom artifact plus valid ensemble artifacts. -/
theorem claim4_custom_failure_falls_back_witness :
    (load_models ⟨true, false, true, true, true⟩ initState).2 = true ∧
    (load_models ⟨true, false, true, true, true⟩ initState).1.models_loaded
      = true ∧
    (load_models ⟨true, false, true, true, true⟩ initState).1.use_custom_model
      = false ∧
    (load_models ⟨true, false, true, true, true⟩ initState).1.resnet50_model
      = true ∧
    (load_models ⟨true, false, true, true, true⟩ initState).1.vgg16_model
      = true ∧
    (load_models ⟨true, false, true, true, true⟩ initState).1.ensemble_mode
      = true ∧
    predict_source (load_models ⟨true, false, true, true, true⟩ initState).1
      = some PredictSource.ensemble :=
  claim4_custom_failure_falls_back ⟨true, false, true, true, true⟩
    rfl rfl rfl rfl

/-! ### Probability rounding and the ensemble combiner
(`_ensemble_predict`, adapter `predict` post-processing) -/

/-- Embeds the Python builtin `round(x, 2)`: round to two decimal places.
(Python rounds halfway cases to even; the Mathlib `round` rounds them up.
The two agree on
every non-halfway value, and no property below depends on a halfway case.) -/
def pyround2 (x : ℚ) : ℚ := (round (x * 100) : ℤ) / 100

/-- The five-class percent table an adapter returns:
`{k: round(v * 100, 2) for k, v in class_probs.items()}` applied to the
softmax output `p` (resnet50_model.py line 168, vgg16_model.py,
custom_trained_model.py line 246). Softmax yields exactly the nonnegative
vectors summing to 1, which is how `p` is constrained in the theorems. -/
def adapter_class_probabilities (p : Fin 5 → ℚ) : Fin 5 → ℚ :=
  fun i => pyround2 (p i * 100)

/-- A `class_probabilities` dict (label ↦ percent) as returned by one
model, embedded as an association list in insertion order. -/
abbrev Probs := List (String × ℚ)

/-- One step of the accumulation in `_ensemble_predict`:
`if class_name not in ensemble_probs: ensemble_probs[class_name] = []`
followed by `ensemble_probs[class_name].append(prob / 100.0)` — here the
division by 100 is applied by the caller. -/
def dictAppendProb (acc : List (String × List ℚ)) (name : String) (p : ℚ) :
    List (String × List ℚ) :=
  if acc.any (fun e => e.1 = name) then
    acc.map (fun e => if e.1 = name then (e.1, e.2 ++ [p]) else e)
  else acc ++ [(name, [p])]

/-- The double loop of enhanced_model_loader.py lines 229-234: for each
prediction, for each `(class_name, prob)` item, append `prob / 100.0`
under `class_name`. -/
def collectProbs (preds : List Probs) : List (String × List ℚ) :=
  preds.foldl
    (fun acc pred =>
      pred.foldl (fun a kv => dictAppendProb a kv.1 (kv.2 / 100)) acc)
    []

/-- `np.mean` of a list: sum divided by length. -/
def listMean (l : List ℚ) : ℚ := l.foldl (fun a b => a + b) 0 / l.length

/-- Lines 237-239: `averaged_probs[class_name] = np.mean(prob_list)`. -/
def averagedProbs (preds : List Probs) : List (String × ℚ) :=
  (collectProbs preds).map (fun e => (e.1, listMean e.2))

/-- Embeds `max(averaged_probs, key=averaged_probs.get)` together with
the value it selects: iterate the dict in insertion order and keep the
current best unless the candidate is strictly greater, so the first
maximal entry wins. (`max` of an empty dict raises; the combiner is only
reached with nonempty predictions, and the `("", 0)` branch is dead.) -/
def maxByValue (l : List (String × ℚ)) : String × ℚ :=
  match l with
  | [] => ("", 0)
  | x :: rest => rest.foldl (fun best p => if best.2 < p.2 then p else best) x

/-- Lines 245-251: the `class_labels` table mapping label text back to the
class index. -/
def class_labels : List (String × ℕ) :=
  [("No DR", 0), ("Mild", 1), ("Moderate", 2), ("Severe", 3),
   ("Proliferative DR", 4)]

/-- Embeds `dict.get(key, default)`. -/
def lookupD (l : List (String × ℕ)) (k : String) (dflt : ℕ) : ℕ :=
  match l.lookup k with
  | some v => v
  | none => dflt

/-- The fields of the dict `_ensemble_predict` returns that the claims
are about. -/
structure EnsembleOut where
  predicted_class : ℕ
  predicted_label : String
  confidence : ℚ
  class_probabilities : List (String × ℚ)
deriving DecidableEq, Repr

/-- The merge branch of `_ensemble_predict` (enhanced_model_loader.py
lines 228-265, the path taken with two or more successful predictions):
average the per-class probabilities, take the first maximal label, map it
back to an index with `class_labels.get(name, 0)`, and report the rounded
percents. The function is total — no input raises. -/
def ensemble_predict (preds : List Probs) : EnsembleOut :=
  let averaged := averagedProbs preds
  let best := maxByValue averaged
  { predicted_class := lookupD class_labels best.1 0
    predicted_label := best.1
    confidence := pyround2 (best.2 * 100)
    class_probabilities := averaged.map (fun e => (e.1, pyround2 (e.2 * 100))) }

/-- The label table shared by both adapters
(`self.class_labels = {0: "No DR", ...}`), indexed by class. -/
def labelName : Fin 5 → String
  | 0 => "No DR"
  | 1 => "Mild"
  | 2 => "Moderate"
  | 3 => "Severe"
  | 4 => "Proliferative DR"

/-- A `class_probabilities` dict as both adapters build it: the five
labels in ascending class order (`{self.class_labels[i]: ... for i in
range(5)}`), carrying percents `q`. -/
def mkProbs (q : Fin 5 → ℚ) : Probs :=
  [("No DR", q 0), ("Mild", q 1), ("Moderate", q 2), ("Severe", q 3),
   ("Proliferative DR", q 4)]

/-- Computation of the averaged distribution for two canonical adapter
outputs: each class is the arithmetic mean of the two percent values
divided by 100. -/
theorem averagedProbs_two (q1 q2 : Fin 5 → ℚ) :
    averagedProbs [mkProbs q1, mkProbs q2] =
      [("No DR", (q1 0 / 100 + q2 0 / 100) / 2),
       ("Mild", (q1 1 / 100 + q2 1 / 100) / 2),
       ("Moderate", (q1 2 / 100 + q2 2 / 100) / 2),
       ("Severe", (q1 3 / 100 + q2 3 / 100) / 2),
       ("Proliferative DR", (q1 4 / 100 + q2 4 / 100) / 2)] := by
  simp [averagedProbs, collectProbs, mkProbs, dictAppendProb, listMean]

/-- `maxByValue` on a five-entry list returns the first entry attaining
the maximum value: the result is an entry `w` whose value dominates all
others and strictly dominates every earlier one. -/
theorem maxByValue_five (l : Fin 5 → String) (a : Fin 5 → ℚ) :
    ∃ w : Fin 5,
      maxByValue [(l 0, a 0), (l 1, a 1), (l 2, a 2), (l 3, a 3), (l 4, a 4)]
        = (l w, a w) ∧
      (∀ k, a k ≤ a w) ∧ (∀ k, k < w → a k < a w) := by
  simp only [maxByValue, List.foldl]
  split_ifs
  all_goals refine ⟨_, rfl, fun k => ?_, fun k hk => ?_⟩
  all_goals fin_cases k
  all_goals simp_all
  all_goals try linarith

/-- Looking the canonical labels back up in `class_labels` recovers the
class index. -/
theorem lookupD_labelName (w : Fin 5) :
    lookupD class_labels (labelName w) 0 = w.val := by
  fin_cases w <;> rfl

theorem ensemble_predict_class (preds : List Probs) :
    (ensemble_predict preds).predicted_class
      = lookupD class_labels (maxByValue (averagedProbs preds)).1 0 := rfl

theorem ensemble_predict_label (preds : List Probs) :
    (ensemble_predict preds).predicted_label
      = (maxByValue (averagedProbs preds)).1 := rfl

theorem ensemble_predict_probs (preds : List Probs) :
    (ensemble_predict preds).class_probabilities
      = (averagedProbs preds).map (fun e => (e.1, pyround2 (e.2 * 100))) := rfl

/-! ### Binary64 rounding model for the operations that decide ensemble
ties (claim C6)

The adapter percents flow through two float64 operations before the
combiner compares them: the division `prob / 100.0` (line 234) and
`np.mean` (line 239), which adds the array elements and divides by the
length. Every finite double is an exact rational, so the float pipeline is
embedded over `ℚ` with an explicit rounding function `fl` — round to
nearest, 53-bit significand, ties to even — applied after each operation.
`fl` covers the normal range of binary64, which contains every value these
claims touch; comparisons between stored doubles are exact rational
comparisons. -/

/-- Round to the nearest integer, ties to the even neighbor, as IEEE-754
arithmetic rounds significands. -/
def roundHalfEven (x : ℚ) : ℤ :=
  if Int.fract x < 1 / 2 then ⌊x⌋
  else if 1 / 2 < Int.fract x then ⌊x⌋ + 1
  else if 2 ∣ ⌊x⌋ then ⌊x⌋ else ⌊x⌋ + 1

/-- Rounds a rational to the nearest binary64 value (normal range): scale
into the 53-bit significand window given by the binary exponent, round
half to even, and scale back. -/
def fl (x : ℚ) : ℚ :=
  if x = 0 then 0
  else (roundHalfEven (x * 2 ^ ((52 : ℤ) - Int.log 2 |x|)) : ℚ)
    * 2 ^ (Int.log 2 |x| - 52)

theorem int_log_two_eq {x : ℚ} {e : ℤ} (hx : 0 < x)
    (h1 : (2 : ℚ) ^ e ≤ x) (h2 : x < (2 : ℚ) ^ (e + 1)) :
    Int.log 2 x = e := by
  have hl : ((2 : ℕ) : ℚ) ^ Int.log 2 x ≤ x :=
    Int.zpow_log_le_self (by norm_num) hx
  have hu : x < ((2 : ℕ) : ℚ) ^ (Int.log 2 x + 1) :=
    Int.lt_zpow_succ_log_self (by norm_num) x
  push_cast at hl hu
  have A : Int.log 2 x ≤ e := by
    by_contra hc
    push_neg at hc
    have h3 : (2 : ℚ) ^ (e + 1) ≤ (2 : ℚ) ^ (Int.log 2 x) :=
      (zpow_le_zpow_iff_right₀ (by norm_num : (1 : ℚ) < 2)).mpr (by omega)
    linarith
  have B : e ≤ Int.log 2 x := by
    by_contra hc
    push_neg at hc
    have h3 : (2 : ℚ) ^ (Int.log 2 x + 1) ≤ (2 : ℚ) ^ e :=
      (zpow_le_zpow_iff_right₀ (by norm_num : (1 : ℚ) < 2)).mpr (by omega)
    linarith
  omega

theorem roundHalfEven_eq_of_lt_half (x : ℚ) (z : ℤ) (h1 : (z : ℚ) ≤ x)
    (h2 : x < (z : ℚ) + 1 / 2) : roundHalfEven x = z := by
  have hfl : ⌊x⌋ = z := Int.floor_eq_iff.mpr ⟨h1, by push_cast; linarith⟩
  unfold roundHalfEven Int.fract
  rw [hfl, if_pos (by push_cast; linarith)]

theorem roundHalfEven_eq_of_gt_half (x : ℚ) (z : ℤ)
    (h1 : (z : ℚ) + 1 / 2 < x) (h2 : x < (z : ℚ) + 1) :
    roundHalfEven x = z + 1 := by
  have hfl : ⌊x⌋ = z :=
    Int.floor_eq_iff.mpr ⟨by linarith, by push_cast; linarith⟩
  unfold roundHalfEven Int.fract
  rw [hfl, if_neg (by push_cast; push_neg; linarith),
    if_pos (by push_cast; linarith)]

theorem roundHalfEven_eq_of_half_odd (x : ℚ) (z : ℤ)
    (h : x = (z : ℚ) + 1 / 2) (hodd : ¬ (2 ∣ z)) :
    roundHalfEven x = z + 1 := by
  have hfl : ⌊x⌋ = z := Int.floor_eq_iff.mpr
    ⟨by rw [h]; linarith, by rw [h]; push_cast; linarith⟩
  unfold roundHalfEven Int.fract
  rw [hfl, h, show (z : ℚ) + 1 / 2 - z = 1 / 2 from by ring,
    if_neg (by norm_num), if_neg (by norm_num), if_neg hodd]

theorem roundHalfEven_intCast (m : ℤ) : roundHalfEven (m : ℚ) = m :=
  roundHalfEven_eq_of_lt_half _ m (le_refl _) (by linarith)

theorem fl_eval (x : ℚ) (e m : ℤ) (hx : 0 < x)
    (h1 : (2 : ℚ) ^ e ≤ x) (h2 : x < (2 : ℚ) ^ (e + 1))
    (hm : roundHalfEven (x * 2 ^ ((52 : ℤ) - e)) = m) :
    fl x = (m : ℚ) * 2 ^ (e - 52) := by
  unfold fl
  rw [if_neg (ne_of_gt hx), abs_of_pos hx, int_log_two_eq hx h1 h2, hm]

theorem fl_eval_neg (x : ℚ) (k : ℕ) (m : ℤ) (hx : 0 < x)
    (h1 : 1 ≤ x * 2 ^ k) (h2 : x * 2 ^ k < 2)
    (hm : roundHalfEven (x * 2 ^ (52 + k)) = m) :
    fl x = (m : ℚ) / 2 ^ (52 + k) := by
  have hpk : (0 : ℚ) < 2 ^ k := by positivity
  have he1 : (2 : ℚ) ^ (-(k : ℤ)) ≤ x := by
    rw [zpow_neg, zpow_natCast, inv_eq_one_div, div_le_iff₀ hpk]
    linarith
  have he2 : x < (2 : ℚ) ^ (-(k : ℤ) + 1) := by
    have hv : (2 : ℚ) ^ (-(k : ℤ) + 1) = 2 / 2 ^ k := by
      rw [zpow_add₀ (two_ne_zero), zpow_one, zpow_neg, zpow_natCast]
      ring
    rw [hv, lt_div_iff₀ hpk]
    linarith
  have harg : x * (2 : ℚ) ^ ((52 : ℤ) - (-(k : ℤ))) = x * 2 ^ (52 + k) := by
    rw [show (52 : ℤ) - (-(k : ℤ)) = ((52 + k : ℕ) : ℤ) from by
      push_cast; ring, zpow_natCast]
  have hfe := fl_eval x (-(k : ℤ)) m hx he1 he2 (by rw [harg]; exact hm)
  rw [hfe, show (-(k : ℤ) - 52) = -(((52 + k : ℕ)) : ℤ) from by
    push_cast; ring, zpow_neg, zpow_natCast, div_eq_mul_inv]

theorem fl_eval_neg_exact (x : ℚ) (k : ℕ) (m : ℤ) (hx : 0 < x)
    (h1 : 1 ≤ x * 2 ^ k) (h2 : x * 2 ^ k < 2)
    (hm : x * 2 ^ (52 + k) = (m : ℚ)) :
    fl x = (m : ℚ) / 2 ^ (52 + k) :=
  fl_eval_neg x k m hx h1 h2 (by rw [hm]; exact roundHalfEven_intCast m)

/-- Float64 addition: add exactly, then round. -/
def flAdd (a b : ℚ) : ℚ := fl (a + b)

/-- Float64 division: divide exactly, then round. -/
def flDiv (a b : ℚ) : ℚ := fl (a / b)

/-- Sequential float64 array summation as `np.add.reduce` performs it for
short arrays: start from the first element and fold the float addition. -/
def flListSum : List ℚ → ℚ
  | [] => 0
  | x :: xs => xs.foldl flAdd x

/-- Embeds `np.mean` over a float64 array: float sum divided (in float64)
by the length. -/
def listMeanFloat (l : List ℚ) : ℚ := flDiv (flListSum l) (l.length : ℚ)

theorem listMeanFloat_pair (a b : ℚ) :
    listMeanFloat [a, b] = flDiv (fl (a + b)) 2 := by
  simp [listMeanFloat, flListSum, flAdd]

/-- The accumulation loop of `_ensemble_predict` with the float division
`prob / 100.0` made explicit. -/
def collectProbsFloat (preds : List Probs) : List (String × List ℚ) :=
  preds.foldl
    (fun acc pred =>
      pred.foldl (fun a kv => dictAppendProb a kv.1 (flDiv kv.2 100)) acc)
    []

/-- Lines 237-239 with `np.mean` in float64. -/
def averagedProbsFloat (preds : List Probs) : List (String × ℚ) :=
  (collectProbsFloat preds).map (fun e => (e.1, listMeanFloat e.2))

/-- The merge branch of `_ensemble_predict` with the two float64 rounding
points modelled; the comparisons inside `max` and the label lookup are
exact and shared with the rational model. -/
def ensemble_predict_float (preds : List Probs) : EnsembleOut :=
  let averaged := averagedProbsFloat preds
  let best := maxByValue averaged
  { predicted_class := lookupD class_labels best.1 0
    predicted_label := best.1
    confidence := pyround2 (best.2 * 100)
    class_probabilities := averaged.map (fun e => (e.1, pyround2 (e.2 * 100))) }

theorem ensemble_predict_float_class (preds : List Probs) :
    (ensemble_predict_float preds).predicted_class
      = lookupD class_labels (maxByValue (averagedProbsFloat preds)).1 0 := rfl

theorem ensemble_predict_float_label (preds : List Probs) :
    (ensemble_predict_float preds).predicted_label
      = (maxByValue (averagedProbsFloat preds)).1 := rfl

/-- Computation of the float-averaged distribution for two canonical
adapter outputs. -/
theorem averagedProbsFloat_two (q1 q2 : Fin 5 → ℚ) :
    averagedProbsFloat [mkProbs q1, mkProbs q2] =
      [("No DR", listMeanFloat [flDiv (q1 0) 100, flDiv (q2 0) 100]),
       ("Mild", listMeanFloat [flDiv (q1 1) 100, flDiv (q2 1) 100]),
       ("Moderate", listMeanFloat [flDiv (q1 2) 100, flDiv (q2 2) 100]),
       ("Severe", listMeanFloat [flDiv (q1 3) 100, flDiv (q2 3) 100]),
       ("Proliferative DR",
        listMeanFloat [flDiv (q1 4) 100, flDiv (q2 4) 100])] := by
  simp [averagedProbsFloat, collectProbsFloat, mkProbs, dictAppendProb]

/-! ### Concrete binary64 evaluations used for claim C6 -/

theorem fl_div_30 : flDiv 30 100 = 5404319552844595 / 2 ^ 54 := by
  unfold flDiv
  rw [fl_eval_neg _ 2 5404319552844595 (by norm_num) (by norm_num)
    (by norm_num)
    (roundHalfEven_eq_of_lt_half _ 5404319552844595 (by norm_num)
      (by norm_num))]
  norm_num

theorem fl_div_20 : flDiv 20 100 = 7205759403792794 / 2 ^ 55 := by
  unfold flDiv
  rw [fl_eval_neg _ 3 7205759403792794 (by norm_num) (by norm_num)
    (by norm_num)
    (by
      rw [roundHalfEven_eq_of_gt_half _ 7205759403792793 (by norm_num)
        (by norm_num)]
      norm_num)]
  norm_num

theorem fl_div_40 : flDiv 40 100 = 7205759403792794 / 2 ^ 54 := by
  unfold flDiv
  rw [fl_eval_neg _ 2 7205759403792794 (by norm_num) (by norm_num)
    (by norm_num)
    (by
      rw [roundHalfEven_eq_of_gt_half _ 7205759403792793 (by norm_num)
        (by norm_num)]
      norm_num)]
  norm_num

theorem fl_div_15 : flDiv 15 100 = 5404319552844595 / 2 ^ 55 := by
  unfold flDiv
  rw [fl_eval_neg _ 3 5404319552844595 (by norm_num) (by norm_num)
    (by norm_num)
    (roundHalfEven_eq_of_lt_half _ 5404319552844595 (by norm_num)
      (by norm_num))]
  norm_num

theorem fl_div_10 : flDiv 10 100 = 7205759403792794 / 2 ^ 56 := by
  unfold flDiv
  rw [fl_eval_neg _ 4 7205759403792794 (by norm_num) (by norm_num)
    (by norm_num)
    (by
      rw [roundHalfEven_eq_of_gt_half _ 7205759403792793 (by norm_num)
        (by norm_num)]
      norm_num)]
  norm_num

/-- Stored mean of percents 30 and 30:
the double below 0.3 (`fl (30/100)` is below 0.3 and the mean is exact). -/
theorem mean_float_30_30 :
    listMeanFloat [flDiv 30 100, flDiv 30 100]
      = 5404319552844595 / 2 ^ 54 := by
  rw [listMeanFloat_pair, fl_div_30]
  rw [show fl ((5404319552844595 : ℚ) / 2 ^ 54 + 5404319552844595 / 2 ^ 54)
      = (5404319552844595 : ℚ) / 2 ^ 53 from by
    rw [fl_eval_neg_exact _ 1 5404319552844595 (by norm_num) (by norm_num)
      (by norm_num) (by push_cast; norm_num)]
    norm_num]
  unfold flDiv
  rw [fl_eval_neg_exact _ 2 5404319552844595 (by norm_num) (by norm_num)
    (by norm_num) (by push_cast; norm_num)]
  norm_num

/-- Stored mean of percents 20 and 40: the float sum
`fl (20/100) + fl (40/100)` rounds up at a tie (the well-known
0.2 + 0.4 = 0.6000000000000001), so the mean lands one ulp above 0.3 —
strictly larger than the mean of 30 and 30. -/
theorem mean_float_20_40 :
    listMeanFloat [flDiv 20 100, flDiv 40 100]
      = 5404319552844596 / 2 ^ 54 := by
  rw [listMeanFloat_pair, fl_div_20, fl_div_40]
  rw [show fl ((7205759403792794 : ℚ) / 2 ^ 55 + 7205759403792794 / 2 ^ 54)
      = (5404319552844596 : ℚ) / 2 ^ 53 from by
    rw [fl_eval_neg _ 1 5404319552844596 (by norm_num) (by norm_num)
      (by norm_num)
      (by
        rw [roundHalfEven_eq_of_half_odd _ 5404319552844595 (by norm_num)
          (by omega)]
        norm_num)]
    norm_num]
  unfold flDiv
  rw [fl_eval_neg_exact _ 2 5404319552844596 (by norm_num) (by norm_num)
    (by norm_num) (by push_cast; norm_num)]
  norm_num

theorem mean_float_20_10 :
    listMeanFloat [flDiv 20 100, flDiv 10 100]
      = 5404319552844596 / 2 ^ 55 := by
  rw [listMeanFloat_pair, fl_div_20, fl_div_10]
  rw [show fl ((7205759403792794 : ℚ) / 2 ^ 55 + 7205759403792794 / 2 ^ 56)
      = (5404319552844596 : ℚ) / 2 ^ 54 from by
    rw [fl_eval_neg _ 2 5404319552844596 (by norm_num) (by norm_num)
      (by norm_num)
      (by
        rw [roundHalfEven_eq_of_half_odd _ 5404319552844595 (by norm_num)
          (by omega)]
        norm_num)]
    norm_num]
  unfold flDiv
  rw [fl_eval_neg_exact _ 3 5404319552844596 (by norm_num) (by norm_num)
    (by norm_num) (by push_cast; norm_num)]
  norm_num

theorem mean_float_15_10 :
    listMeanFloat [flDiv 15 100, flDiv 10 100] = 1 / 8 := by
  rw [listMeanFloat_pair, fl_div_15, fl_div_10]
  rw [show fl ((5404319552844595 : ℚ) / 2 ^ 55 + 7205759403792794 / 2 ^ 56)
      = (4503599627370496 : ℚ) / 2 ^ 54 from by
    rw [fl_eval_neg_exact _ 2 4503599627370496 (by norm_num) (by norm_num)
      (by norm_num) (by push_cast; norm_num)]
    norm_num]
  unfold flDiv
  rw [fl_eval_neg_exact _ 3 4503599627370496 (by norm_num) (by norm_num)
    (by norm_num) (by push_cast; norm_num)]
  norm_num

theorem mean_float_20_20 :
    listMeanFloat [flDiv 20 100, flDiv 20 100]
      = 7205759403792794 / 2 ^ 55 := by
  rw [listMeanFloat_pair, fl_div_20]
  rw [show fl ((7205759403792794 : ℚ) / 2 ^ 55 + 7205759403792794 / 2 ^ 55)
      = (7205759403792794 : ℚ) / 2 ^ 54 from by
    rw [fl_eval_neg_exact _ 2 7205759403792794 (by norm_num) (by norm_num)
      (by norm_num) (by push_cast; norm_num)]
    norm_num]
  unfold flDiv
  rw [fl_eval_neg_exact _ 3 7205759403792794 (by norm_num) (by norm_num)
    (by norm_num) (by push_cast; norm_num)]
  norm_num

theorem mean_float_10_10 :
    listMeanFloat [flDiv 10 100, flDiv 10 100]
      = 7205759403792794 / 2 ^ 56 := by
  rw [listMeanFloat_pair, fl_div_10]
  rw [show fl ((7205759403792794 : ℚ) / 2 ^ 56 + 7205759403792794 / 2 ^ 56)
      = (7205759403792794 : ℚ) / 2 ^ 55 from by
    rw [fl_eval_neg_exact _ 3 7205759403792794 (by norm_num) (by norm_num)
      (by norm_num) (by push_cast; norm_num)]
    norm_num]
  unfold flDiv
  rw [fl_eval_neg_exact _ 4 7205759403792794 (by norm_num) (by norm_num)
    (by norm_num) (by push_cast; norm_num)]
  norm_num

/-- First ensemble input of the C6 counterexample: percents 30, 20, 20,
15, 15 (a valid adapter table summing to 100). -/
def cq1 : Fin 5 → ℚ
  | 0 => 30
  | 1 => 20
  | 2 => 20
  | 3 => 15
  | 4 => 15

/-- Second ensemble input of the C6 counterexample: percents 30, 40, 10,
10, 10 (also summing to 100). -/
def cq2 : Fin 5 → ℚ
  | 0 => 30
  | 1 => 40
  | 2 => 10
  | 3 => 10
  | 4 => 10

/-- Claim C6, counterexample. Percents (30, 30) for class 0 and (20, 40)
for class 1 have the same decimal mean, 30% — equal within any floating
tolerance (the stored doubles differ by one ulp, about 5.6e-17). But in
float64 the class-1 mean rounds one ulp above 0.3 while the class-0 mean
sits one ulp below, both dominate every other class, and the combiner
selects `"Mild"`, predicted_class 1 — the *higher* stage of the
near-tied pair, contradicting the claimed conservative tie-break. -/
theorem claim6_counterexample :
    |listMeanFloat [flDiv 30 100, flDiv 30 100]
        - listMeanFloat [flDiv 20 100, flDiv 40 100]| ≤ 1 / 1000000 ∧
    listMeanFloat [flDiv 30 100, flDiv 30 100]
        < listMeanFloat [flDiv 20 100, flDiv 40 100] ∧
    listMeanFloat [flDiv 20 100, flDiv 10 100]
        ≤ listMeanFloat [flDiv 20 100, flDiv 40 100] ∧
    listMeanFloat [flDiv 15 100, flDiv 10 100]
        ≤ listMeanFloat [flDiv 20 100, flDiv 40 100] ∧
    (ensemble_predict_float [mkProbs cq1, mkProbs cq2]).predicted_label
        = "Mild" ∧
    (ensemble_predict_float [mkProbs cq1, mkProbs cq2]).predicted_class
        = 1 := by
  have hav : averagedProbsFloat [mkProbs cq1, mkProbs cq2] =
      [("No DR", (5404319552844595 : ℚ) / 2 ^ 54),
       ("Mild", (5404319552844596 : ℚ) / 2 ^ 54),
       ("Moderate", (5404319552844596 : ℚ) / 2 ^ 55),
       ("Severe", (1 : ℚ) / 8),
       ("Proliferative DR", (1 : ℚ) / 8)] := by
    rw [averagedProbsFloat_two]
    simp only [show cq1 0 = 30 from rfl, show cq1 1 = 20 from rfl,
      show cq1 2 = 20 from rfl, show cq1 3 = 15 from rfl,
      show cq1 4 = 15 from rfl, show cq2 0 = 30 from rfl,
      show cq2 1 = 40 from rfl, show cq2 2 = 10 from rfl,
      show cq2 3 = 10 from rfl, show cq2 4 = 10 from rfl]
    rw [mean_float_30_30, mean_float_20_40, mean_float_20_10,
      mean_float_15_10]
  have hmx : maxByValue [("No DR", (5404319552844595 : ℚ) / 2 ^ 54),
       ("Mild", (5404319552844596 : ℚ) / 2 ^ 54),
       ("Moderate", (5404319552844596 : ℚ) / 2 ^ 55),
       ("Severe", (1 : ℚ) / 8),
       ("Proliferative DR", (1 : ℚ) / 8)]
      = ("Mild", (5404319552844596 : ℚ) / 2 ^ 54) := by
    norm_num [maxByValue]
  refine ⟨?_, ?_, ?_, ?_, ?_, ?_⟩
  · rw [mean_float_30_30, mean_float_20_40, abs_le]
    constructor <;> norm_num
  · rw [mean_float_30_30, mean_float_20_40]
    norm_num
  · rw [mean_float_20_10, mean_float_20_40]
    norm_num
  · rw [mean_float_15_10, mean_float_20_40]
    norm_num
  · rw [ensemble_predict_float_label, hav, hmx]
  · rw [ensemble_predict_float_class, hav, hmx]
    rfl

/-- Claim C6, amended. The combiner prefers the lower stage index only on
*exact* ties of the stored float64 means: if classes `i < j` have equal
stored averaged values and the pair sits at the maximum, the
first-maximum-wins scan over the ascending-class insertion order selects
a class index at most `i` and never `j`. When rounding makes
decimal-equal means differ by an ulp, the strictly larger mean wins
regardless of stage order (see the counterexample). -/
theorem claim6_amended (q1 q2 : Fin 5 → ℚ) (i j : Fin 5) (hij : i < j)
    (htie : listMeanFloat [flDiv (q1 i) 100, flDiv (q2 i) 100]
        = listMeanFloat [flDiv (q1 j) 100, flDiv (q2 j) 100])
    (hmax : ∀ k, listMeanFloat [flDiv (q1 k) 100, flDiv (q2 k) 100]
        ≤ listMeanFloat [flDiv (q1 i) 100, flDiv (q2 i) 100]) :
    (ensemble_predict_float [mkProbs q1, mkProbs q2]).predicted_class
        ≤ i.val ∧
    (ensemble_predict_float [mkProbs q1, mkProbs q2]).predicted_class
        ≠ j.val := by
  obtain ⟨w, hmv, hwmax, hwfirst⟩ :=
    maxByValue_five labelName
      (fun k => listMeanFloat [flDiv (q1 k) 100, flDiv (q2 k) 100])
  simp only [show labelName 0 = "No DR" from rfl,
    show labelName 1 = "Mild" from rfl,
    show labelName 2 = "Moderate" from rfl,
    show labelName 3 = "Severe" from rfl,
    show labelName 4 = "Proliferative DR" from rfl] at hmv
  have hclass :
      (ensemble_predict_float [mkProbs q1, mkProbs q2]).predicted_class
        = w.val := by
    rw [ensemble_predict_float_class, averagedProbsFloat_two, hmv]
    exact lookupD_labelName w
  have hwile : w ≤ i := by
    by_contra hgt
    push_neg at hgt
    exact absurd (hwfirst i hgt) (not_lt.mpr (hmax w))
  constructor
  · rw [hclass]
    exact hwile
  · rw [hclass]
    have hwj : w.val < j.val := lt_of_le_of_lt hwile hij
    omega

/-- Adapter table used by the C6 witness: percents 30, 30, 20, 10, 10. -/
def cqw : Fin 5 → ℚ
  | 0 => 30
  | 1 => 30
  | 2 => 20
  | 3 => 10
  | 4 => 10

/-- Witness for the amended C6: both adapters report identical tables with
classes 0 and 1 at 30%, so the stored float means tie exactly and the
combiner picks class 0, not class 1. -/
theorem claim6_amended_witness :
    (ensemble_predict_float [mkProbs cqw, mkProbs cqw]).predicted_class
        ≤ (0 : Fin 5).val ∧
    (ensemble_predict_float [mkProbs cqw, mkProbs cqw]).predicted_class
        ≠ (1 : Fin 5).val :=
  claim6_amended cqw cqw 0 1 (by norm_num) rfl
    (by
      intro k
      fin_cases k
      · exact le_refl _
      · exact le_refl _
      · show listMeanFloat [flDiv 20 100, flDiv 20 100]
            ≤ listMeanFloat [flDiv 30 100, flDiv 30 100]
        rw [mean_float_20_20, mean_float_30_30]
        norm_num
      · show listMeanFloat [flDiv 10 100, flDiv 10 100]
            ≤ listMeanFloat [flDiv 30 100, flDiv 30 100]
        rw [mean_float_10_10, mean_float_30_30]
        norm_num
      · show listMeanFloat [flDiv 10 100, flDiv 10 100]
            ≤ listMeanFloat [flDiv 30 100, flDiv 30 100]
        rw [mean_float_10_10, mean_float_30_30]
        norm_num)

/-- Claim C10. If the label text maximizing the averaged probabilities is
not one of the five recognized labels, the combiner silently returns class
index 0 (`class_labels.get(name, 0)`), while the confidence still reports
the averaged mean of the unknown label as a rounded percentage; no error is
raised (the combiner is a total function). -/
theorem claim10_unknown_label_defaults_to_zero (p1 p2 : Probs)
    (h : (ensemble_predict [p1, p2]).predicted_label ∉
      ["No DR", "Mild", "Moderate", "Severe", "Proliferative DR"]) :
    (ensemble_predict [p1, p2]).predicted_class = 0 ∧
    (ensemble_predict [p1, p2]).confidence =
      pyround2 ((maxByValue (averagedProbs [p1, p2])).2 * 100) := by
  refine ⟨?_, rfl⟩
  rw [ensemble_predict_label] at h
  simp only [List.mem_cons, List.not_mem_nil, or_false, not_or] at h
  obtain ⟨h1, h2, h3, h4, h5⟩ := h
  rw [ensemble_predict_class]
  simp [lookupD, class_labels, List.lookup,
    beq_eq_false_iff_ne.mpr h1, beq_eq_false_iff_ne.mpr h2,
    beq_eq_false_iff_ne.mpr h3, beq_eq_false_iff_ne.mpr h4,
    beq_eq_false_iff_ne.mpr h5]

/-- Witness for C10: both predictions carry an unrecognized label
`"Weird"` that wins the average; the combiner returns class 0 with the
mean of the unknown label as confidence. -/
theorem claim10_unknown_label_defaults_to_zero_witness :
    (ensemble_predict [[("Weird", 90), ("No DR", 10)],
      [("Weird", 90), ("No DR", 10)]]).predicted_class = 0 ∧
    (ensemble_predict [[("Weird", 90), ("No DR", 10)],
      [("Weird", 90), ("No DR", 10)]]).confidence =
      pyround2 ((maxByValue (averagedProbs [[("Weird", 90), ("No DR", 10)],
        [("Weird", 90), ("No DR", 10)]])).2 * 100) :=
  claim10_unknown_label_defaults_to_zero
    [("Weird", 90), ("No DR", 10)] [("Weird", 90), ("No DR", 10)]
    (by
      have hl : (ensemble_predict [[("Weird", 90), ("No DR", 10)],
          [("Weird", 90), ("No DR", 10)]]).predicted_label = "Weird" := by
        rw [ensemble_predict_label]
        norm_num [maxByValue, averagedProbs, collectProbs, dictAppendProb,
          listMean, show ("Weird" : String) ≠ "No DR" from by decide,
          show ("No DR" : String) ≠ "Weird" from by decide]
      rw [hl]
      decide)

/-! ### Claim C5: probability sums under two-decimal rounding -/

theorem round_eq_of (x : ℚ) (z : ℤ) (h1 : (z : ℚ) ≤ x + 1 / 2)
    (h2 : x + 1 / 2 < z + 1) : round x = z := by
  rw [round_eq]
  exact Int.floor_eq_iff.mpr ⟨h1, h2⟩

theorem pyround2_sub_abs_le (x : ℚ) : |pyround2 x - x| ≤ 1 / 200 := by
  have h := abs_sub_round (x * 100)
  have e : pyround2 x - x = -((x * 100 - (round (x * 100) : ℚ)) / 100) := by
    unfold pyround2
    ring
  rw [e, abs_neg, abs_div, abs_of_pos (show (0 : ℚ) < 100 by norm_num)]
  linarith

theorem pyround2_nonneg (x : ℚ) (hx : 0 ≤ x) : 0 ≤ pyround2 x := by
  unfold pyround2
  have h : (0 : ℤ) ≤ round (x * 100) := by
    rw [round_eq]
    exact Int.floor_nonneg.mpr (by linarith)
  apply div_nonneg _ (by norm_num : (0 : ℚ) ≤ 100)
  exact_mod_cast h

/-- Softmax output whose rounded percent table sums to 100.02: each class
percent has third decimal 6, so every entry rounds up. -/
def cex5 : Fin 5 → ℚ
  | 0 => 12346 / 100000
  | 1 => 12346 / 100000
  | 2 => 12346 / 100000
  | 3 => 12346 / 100000
  | 4 => 50616 / 100000

/-- Claim C5, counterexample. A valid probability vector (nonnegative,
summing to exactly 1, all entries positive and hence reachable as a
softmax output) whose `class_probabilities` percent table — the values the
code actually returns, after `round(v * 100, 2)` — sums to 100.02, not to
100 within `1e-4`. -/
theorem claim5_counterexample :
    (∀ i, 0 ≤ cex5 i) ∧ (∑ i, cex5 i) = 1 ∧
    ¬ |(∑ i, adapter_class_probabilities cex5 i) - 100| ≤ 1 / 10000 := by
  refine ⟨by intro i; fin_cases i <;> norm_num [cex5], ?_, ?_⟩
  · rw [Fin.sum_univ_five]
    norm_num [cex5]
  · have e1 : adapter_class_probabilities cex5 0 = 1235 / 100 := by
      show pyround2 (cex5 0 * 100) = 1235 / 100
      unfold pyround2
      rw [show cex5 0 = 12346 / 100000 from rfl]
      rw [round_eq_of (12346 / 100000 * 100 * 100) 1235 (by norm_num)
        (by norm_num)]
      norm_num
    have e5 : adapter_class_probabilities cex5 4 = 5062 / 100 := by
      show pyround2 (cex5 4 * 100) = 5062 / 100
      unfold pyround2
      rw [show cex5 4 = 50616 / 100000 from rfl]
      rw [round_eq_of (50616 / 100000 * 100 * 100) 5062 (by norm_num)
        (by norm_num)]
      norm_num
    have e2 : adapter_class_probabilities cex5 1 = 1235 / 100 := e1
    have e3 : adapter_class_probabilities cex5 2 = 1235 / 100 := e1
    have e4 : adapter_class_probabilities cex5 3 = 1235 / 100 := e1
    rw [Fin.sum_univ_five, e1, e2, e3, e4, e5]
    norm_num
    rw [show |(1 : ℚ) / 50| = 1 / 50 from abs_of_pos (by norm_num)]
    norm_num

/-- Claim C5, amended. For every valid probability vector, the adapter
`class_probabilities` values are nonnegative and sum to 100 within 0.025
(= 5 × 0.005, the worst accumulated two-decimal rounding error); for the
ensemble combiner fed two such adapter tables, the output values are
nonnegative and sum to 100 within 0.05. -/
theorem claim5_amended :
    (∀ p : Fin 5 → ℚ, (∀ i, 0 ≤ p i) → (∑ i, p i) = 1 →
      (∀ i, 0 ≤ adapter_class_probabilities p i) ∧
      |(∑ i, adapter_class_probabilities p i) - 100| ≤ 1 / 40) ∧
    (∀ q1 q2 : Fin 5 → ℚ, (∀ i, 0 ≤ q1 i) → |(∑ i, q1 i) - 100| ≤ 1 / 40 →
      (∀ i, 0 ≤ q2 i) → |(∑ i, q2 i) - 100| ≤ 1 / 40 →
      (∀ kv ∈ (ensemble_predict [mkProbs q1, mkProbs q2]).class_probabilities,
        0 ≤ kv.2) ∧
      |((ensemble_predict [mkProbs q1,
          mkProbs q2]).class_probabilities.map (fun kv => kv.2)).sum - 100|
        ≤ 1 / 20) := by
  constructor
  · intro p hp hs
    constructor
    · intro i
      exact pyround2_nonneg _ (mul_nonneg (hp i) (by norm_num))
    · rw [Fin.sum_univ_five] at hs
      rw [Fin.sum_univ_five]
      simp only [adapter_class_probabilities]
      obtain ⟨l0, r0⟩ := abs_le.mp (pyround2_sub_abs_le (p 0 * 100))
      obtain ⟨l1, r1⟩ := abs_le.mp (pyround2_sub_abs_le (p 1 * 100))
      obtain ⟨l2, r2⟩ := abs_le.mp (pyround2_sub_abs_le (p 2 * 100))
      obtain ⟨l3, r3⟩ := abs_le.mp (pyround2_sub_abs_le (p 3 * 100))
      obtain ⟨l4, r4⟩ := abs_le.mp (pyround2_sub_abs_le (p 4 * 100))
      rw [abs_le]
      constructor <;> linarith
  · intro q1 q2 h1n h1s h2n h2s
    rw [ensemble_predict_probs, averagedProbs_two]
    rw [Fin.sum_univ_five] at h1s h2s
    constructor
    · intro kv hkv
      fin_cases hkv <;>
        · dsimp only
          refine pyround2_nonneg _ ?_
          have := h1n 0
          have := h1n 1
          have := h1n 2
          have := h1n 3
          have := h1n 4
          have := h2n 0
          have := h2n 1
          have := h2n 2
          have := h2n 3
          have := h2n 4
          linarith
    · simp only [List.map_cons, List.map_nil, List.sum_cons, List.sum_nil]
      obtain ⟨s1l, s1r⟩ := abs_le.mp h1s
      obtain ⟨s2l, s2r⟩ := abs_le.mp h2s
      obtain ⟨l0, r0⟩ := abs_le.mp
        (pyround2_sub_abs_le ((q1 0 / 100 + q2 0 / 100) / 2 * 100))
      obtain ⟨l1, r1⟩ := abs_le.mp
        (pyround2_sub_abs_le ((q1 1 / 100 + q2 1 / 100) / 2 * 100))
      obtain ⟨l2, r2⟩ := abs_le.mp
        (pyround2_sub_abs_le ((q1 2 / 100 + q2 2 / 100) / 2 * 100))
      obtain ⟨l3, r3⟩ := abs_le.mp
        (pyround2_sub_abs_le ((q1 3 / 100 + q2 3 / 100) / 2 * 100))
      obtain ⟨l4, r4⟩ := abs_le.mp
        (pyround2_sub_abs_le ((q1 4 / 100 + q2 4 / 100) / 2 * 100))
      rw [abs_le]
      constructor <;> linarith

/-- Witness for the amended C5 at concrete inputs (a uniform softmax
distribution, and two identical uniform adapter tables). -/
theorem claim5_amended_witness :
    ((∀ i, 0 ≤ adapter_class_probabilities (fun _ => (1 : ℚ) / 5) i) ∧
      |(∑ i, adapter_class_probabilities (fun _ => (1 : ℚ) / 5) i) - 100|
        ≤ 1 / 40) ∧
    ((∀ kv ∈ (ensemble_predict [mkProbs (fun _ => (20 : ℚ)),
        mkProbs (fun _ => (20 : ℚ))]).class_probabilities, 0 ≤ kv.2) ∧
      |((ensemble_predict [mkProbs (fun _ => (20 : ℚ)),
          mkProbs (fun _ => (20 : ℚ))]).class_probabilities.map
            (fun kv => kv.2)).sum - 100| ≤ 1 / 20) :=
  ⟨claim5_amended.1 (fun _ => 1 / 5) (fun _ => by norm_num)
      (by rw [Fin.sum_univ_five]; norm_num),
   claim5_amended.2 (fun _ => 20) (fun _ => 20) (fun _ => by norm_num)
      (by rw [Fin.sum_univ_five]; norm_num) (fun _ => by norm_num)
      (by rw [Fin.sum_univ_five]; norm_num)⟩

/-! ### Checkpoint normalizer (`CustomTrainedModel.load_model`, the
`module.` key handling of custom_trained_model.py lines 139-150) -/

/-- A state-dict key, embedded as its character sequence. -/
abbrev PKey := List Char

/-- Embeds the de-prefixing of one key, custom_trained_model.py lines
143-145: strip the leading seven characters when `k.startswith` reports the
distributed-training wrapper text `module.` in front. -/
def stripModule (k : PKey) : PKey :=
  if k.take 7 = "module.".data then k.drop 7 else k

/-- Python dict assignment `d[k] = v` on an insertion-ordered dict: an
existing key keeps its position and receives the new value, a new key is
appended at the end. -/
def dictInsert {α : Type} (d : List (PKey × α)) (k : PKey) (v : α) :
    List (PKey × α) :=
  if d.any (fun e => e.1 = k) then
    d.map (fun e => if e.1 = k then (k, v) else e)
  else d ++ [(k, v)]

/-- The normalization loop: `new_state = {}` followed by
`for k, v in state_dict.items(): new_state[new_key] = v` with `new_key`
the de-prefixed key. Note the loop raises no error on key collisions. -/
def normalize_state_dict {α : Type} (sd : List (PKey × α)) :
    List (PKey × α) :=
  sd.foldl (fun acc kv => dictInsert acc (stripModule kv.1) kv.2) []

/-- Re-keying a mapping with the distributed-training wrapper text in
front of every key, as `torch.nn.DataParallel` saves checkpoints. -/
def prependModule {α : Type} (sd : List (PKey × α)) : List (PKey × α) :=
  sd.map (fun kv => ("module.".data ++ kv.1, kv.2))

theorem stripModule_prepend (k : PKey) :
    stripModule ("module.".data ++ k) = k := by
  unfold stripModule
  rw [if_pos (List.take_left' (by decide)), List.drop_left' (by decide)]

theorem stripModule_of_plain (k : PKey) (h : k.take 7 ≠ "module.".data) :
    stripModule k = k := if_neg h

theorem normalize_foldl_prepend {α : Type} (sd : List (PKey × α))
    (acc : List (PKey × α))
    (hplain : ∀ kv ∈ sd, kv.1.take 7 ≠ "module.".data) :
    (prependModule sd).foldl
      (fun a kv => dictInsert a (stripModule kv.1) kv.2) acc
    = sd.foldl (fun a kv => dictInsert a (stripModule kv.1) kv.2) acc := by
  induction sd generalizing acc with
  | nil => rfl
  | cons hd tl ih =>
    simp only [prependModule, List.map_cons, List.foldl_cons]
    rw [stripModule_prepend, stripModule_of_plain hd.1
      (hplain hd (List.mem_cons_self hd tl))]
    exact ih _ (fun kv hkv => hplain kv (List.mem_cons_of_mem hd hkv))

/-- Claim C7, counterexample. A one-entry mapping whose sole key itself
begins with `module.` (so there are no key collisions): loading it with
the extra wrapper text produces a different normalized parameter set than
loading it directly, because the code strips at most one copy of the
wrapper text. -/
theorem claim7_counterexample :
    (([("module.x".data, (0 : ℤ))].map Prod.fst).Nodup) ∧
    normalize_state_dict (prependModule [("module.x".data, (0 : ℤ))])
      ≠ normalize_state_dict [("module.x".data, (0 : ℤ))] := by
  constructor
  · decide
  · decide

/-- Claim C7, amended. For every parameter mapping with no key collisions
and *no key already beginning with the wrapper text* `module.`, loading
the mapping with every key wrapped produces exactly the same normalized
parameter set as loading the unwrapped mapping. (The same `new_state` fed
to `load_state_dict` yields the same injected parameters.) -/
theorem claim7_amended {α : Type} (sd : List (PKey × α))
    (hnodup : (sd.map Prod.fst).Nodup)
    (hplain : ∀ kv ∈ sd, kv.1.take 7 ≠ "module.".data) :
    normalize_state_dict (prependModule sd) = normalize_state_dict sd :=
  normalize_foldl_prepend sd [] hplain

/-- Witness for the amended C7 on a concrete plain-keyed mapping. -/
theorem claim7_amended_witness :
    normalize_state_dict (prependModule [("fc.weight".data, (1 : ℤ))])
      = normalize_state_dict [("fc.weight".data, (1 : ℤ))] :=
  claim7_amended [("fc.weight".data, (1 : ℤ))] (by decide) (by decide)

/-- Claim C8. Post-stripping key collision: a mapping containing both
`module.fc.weight` and `fc.weight` normalizes to a single entry holding
the later value — the earlier value is silently overwritten and no error
of any kind is raised (the normalization loop is total), contradicting
the specified behavior of surfacing a coherent error. -/
theorem claim8_collision_silently_overwrites :
    normalize_state_dict
      [("module.fc.weight".data, (1 : ℤ)), ("fc.weight".data, (2 : ℤ))]
      = [("fc.weight".data, (2 : ℤ))] := by
  decide

/-! ### Adapter fine-tuned weight loading
(resnet50_model.py lines 62-75, vgg16_model.py lines 61-74) -/

/-- The runtime facts the adapter constructors branch on: the
`model_path` argument (`None` or a string; Python truthiness makes the
empty string falsy), `torch.cuda.is_available()`, and whether
`torch.load` + `load_state_dict` on that path would succeed (file exists
and is compatible). -/
structure AdapterEnv where
  model_path : Option String
  cuda_available : Bool
  weights_load_ok : Bool

/-- Python truthiness of the `model_path` argument. -/
def pathTruthy : Option String → Bool
  | none => false
  | some s => s != ""

inductive WeightsUsed where
  | fineTuned
  | generic
deriving DecidableEq, Repr

/-- resnet50_model.py line 67: `if model_path and
torch.cuda.is_available():` guards the whole load attempt. -/
def resnet50_attempts_load (env : AdapterEnv) : Bool :=
  pathTruthy env.model_path && env.cuda_available

/-- The weights the ResNet50 adapter ends up with: inside the guard, a
failing `torch.load`/`load_state_dict` is caught and only logged
(`Using pre-trained ImageNet weights.`), so fine-tuned weights are in
effect exactly when the attempt happens and succeeds. -/
def resnet50_weights (env : AdapterEnv) : WeightsUsed :=
  if resnet50_attempts_load env then
    if env.weights_load_ok then WeightsUsed.fineTuned else WeightsUsed.generic
  else WeightsUsed.generic

/-- vgg16_model.py line 66: textually identical guard. -/
def vgg16_attempts_load (env : AdapterEnv) : Bool :=
  pathTruthy env.model_path && env.cuda_available

/-- vgg16_model.py lines 66-71: identical load logic. -/
def vgg16_weights (env : AdapterEnv) : WeightsUsed :=
  if vgg16_attempts_load env then
    if env.weights_load_ok then WeightsUsed.fineTuned else WeightsUsed.generic
  else WeightsUsed.generic

/-- Claim C9, counterexample. With an existing, loadable weights file but no
CUDA device, the adapter does not attempt the fine-tuned load at all and
silently uses generic backbone weights — the attempt does depend on GPU
availability. -/
theorem claim9_counterexample :
    pathTruthy (some "resnet50_dr_weights.pth") = true ∧
    resnet50_attempts_load
      ⟨some "resnet50_dr_weights.pth", false, true⟩ = false ∧
    resnet50_weights ⟨some "resnet50_dr_weights.pth", false, true⟩
      = WeightsUsed.generic ∧
    vgg16_attempts_load ⟨some "vgg16_dr_weights.pth", false, true⟩
      = false := by
  decide

/-- Claim C9, amended. For both ensemble adapters: the fine-tuned load is
attempted exactly when a truthy weights path was given *and* CUDA is
available; fine-tuned weights are in effect exactly when that attempt
happens and the load succeeds; in every other case the adapter keeps
generic pretrained-backbone weights. -/
theorem claim9_amended :
    (∀ env : AdapterEnv, resnet50_attempts_load env
      = (pathTruthy env.model_path && env.cuda_available)) ∧
    (∀ env : AdapterEnv, resnet50_weights env
      = if resnet50_attempts_load env && env.weights_load_ok then
          WeightsUsed.fineTuned
        else WeightsUsed.generic) ∧
    (∀ env : AdapterEnv, vgg16_attempts_load env
      = (pathTruthy env.model_path && env.cuda_available)) ∧
    (∀ env : AdapterEnv, vgg16_weights env
      = if vgg16_attempts_load env && env.weights_load_ok then
          WeightsUsed.fineTuned
        else WeightsUsed.generic) := by
  refine ⟨fun env => rfl, fun env => ?_, fun env => rfl, fun env => ?_⟩ <;>
    · obtain ⟨p, c, w⟩ := env
      cases hw : w <;>
        cases hc : c <;>
          cases hp : pathTruthy p <;>
            simp [resnet50_weights, vgg16_weights, resnet50_attempts_load,
              vgg16_attempts_load, hp]

end OpthalmoAI
